import Mathlib

/-!
Verification development for the astra-lianjia data-synthesis pipelines.

Python source files are embedded shallowly: pure functions become Lean
functions, loops become structural recursion on an explicit bound or fuel,
LLM / sandbox / network calls become oracle parameters, and Python
exceptions become `Except PyErr`.
-/

namespace Astra

/-- Python exceptions that the embedded code can raise. -/
inductive PyErr where
  | typeError (msg : String)
  | indexError (msg : String)
  | keyError (msg : String)
deriving DecidableEq, Repr

/-- Bool-valued substring test on lists of characters:
`needle` occurs contiguously inside `hay`. -/
def isSubListOf (needle : List Char) : List Char → Bool
  | [] => needle.isEmpty
  | c :: rest => needle.isPrefixOf (c :: rest) || isSubListOf needle rest

/-- Python's `needle in hay` on strings (contiguous substring test). -/
def pyIn (needle hay : String) : Bool := isSubListOf needle.toList hay.toList

/-! ## Configuration constants

From `env_synthesis/src/utils/api_config.py` (the trajectory-synthesis copy
carries identical values). -/

def API_RETRY_SLEEP_TIME : Nat := 5

def API_MAX_RETRY_TIMES : Nat := 10

def ENV_SYNTHESIS_INNER_MAX_RETRY_TIMES : Nat := 5

def ENV_SYNTHESIS_OUTER_MAX_RETRY_TIMES : Nat := 15

/-! ## LLM client: `get_openai_model_ans` (env_synthesis/src/utils/api_client.py)

One attempt of `model.chat.completions.create(...)` plus the payload reads
either returns a response string or raises an exception with message
`str(e)`.  The attempt outcomes are an oracle indexed by attempt number. -/

/-- Outcome of one chat-completion attempt inside the `try` block. -/
inductive ApiAttempt where
  | ok (response : String)
  | raise (msg : String)

/-- The context-overflow marker tested on line 95 of api_client.py. -/
def contextOverflowMarker : String :=
  "is longer than the model's context length (51200 tokens)"

/--
The `while True` loop of `get_openai_model_ans` (api_client.py lines 33-105),
instrumented with fuel: `none` means the loop is still running after `fuel`
iterations.  Faithful detail: `cur_retry = 0` is the first statement *inside*
the `while True` body (line 34), so it is reset on every iteration; the
increment on line 87 therefore always yields `cur_retry = 1` and the guard
`cur_retry > retry_times` on line 88 compares `1 > 10`.
`k` is the index of the current attempt in the oracle.
The returned value `some r` models `{"response": r}`; `r = none` is the
null payload `{"response": None}`.
-/
def get_openai_model_ans_loop (oracle : Nat → ApiAttempt) :
    Nat → Nat → Option (Option String)
  | 0, _ => none
  | fuel + 1, k =>
    -- cur_retry = 0  (reset here, every iteration)
    let cur_retry : Nat := 0
    match oracle k with
    | .ok r => some (some r)
    | .raise msg =>
      let cur_retry := cur_retry + 1
      if cur_retry > API_MAX_RETRY_TIMES then
        some none
      else if pyIn contextOverflowMarker msg then
        some none
      else
        -- time.sleep(API_RETRY_SLEEP_TIME); continue
        get_openai_model_ans_loop oracle fuel (k + 1)

/-- `get_openai_model_ans` run for at most `fuel` loop iterations. -/
def get_openai_model_ans (oracle : Nat → ApiAttempt) (fuel : Nat) :
    Option (Option String) :=
  get_openai_model_ans_loop oracle fuel 0

/-! ## Response parsing and tool-document generation
(env_synthesis/src/step_04_env_synthesis.py)

`parse_ans` strips think blocks and code fences, then attempts
`json.loads` / `literal_eval`; a failed parse returns `None`.  The JSON
machinery is abstracted into an oracle outcome per LLM call: either the
client returned the null payload, or the text did not parse, or it parsed
to a dict with given key contents. -/

/-- Parsed dict returned by a successful `parse_ans`: we record whether the
keys inspected by the stage functions are present, plus their payloads. -/
structure ParsedDict where
  hasTool : Bool
  hasAnalysis : Bool
  tool : String
  analysis : String
deriving DecidableEq, Repr

/-- Outcome of one LLM call as seen by a stage function. -/
inductive LlmResponse where
  | nullResp
  | unparsable (raw : String)
  | dict (d : ParsedDict)

/--
`parse_ans(string)` (step_04_env_synthesis.py lines 42-63).
On the null payload, `"</think>" in string` with `string = None` (line 46,
outside the `try`) raises `TypeError`; an unparsable text reaches the
`except` arms and returns `None`; otherwise the parsed dict is returned.
-/
def parse_ans : LlmResponse → Except PyErr (Option ParsedDict)
  | .nullResp => .error (.typeError "argument of type NoneType is not iterable")
  | .unparsable _ => .ok none
  | .dict d => .ok (some d)

/-- Result of `_tool_document_generation`: the `content`/`analysis` dict. -/
structure DocResult where
  content : String
  analysis : String
deriving DecidableEq, Repr

/--
The retry loop of `_tool_document_generation` (lines 88-100), running with
`remaining = ENV_SYNTHESIS_INNER_MAX_RETRY_TIMES - try_times` iterations
left and `k = try_times` indexing the response oracle.  Faithful detail:
line 96 evaluates `"tool" in output_parsed and "analysis" in output_parsed`
directly on the value returned by `parse_ans`; when that value is `None`
(unparsable text) the membership test raises `TypeError`.
-/
def tool_document_generation_loop (oracle : Nat → LlmResponse) :
    Nat → Nat → Except PyErr (Option ParsedDict)
  | 0, _ => .ok none
  | remaining + 1, k =>
    match parse_ans (oracle k) with
    | .error e => .error e
    | .ok none =>
      -- `"tool" in output_parsed` with output_parsed = None
      .error (.typeError "argument of type NoneType is not iterable")
    | .ok (some d) =>
      if d.hasTool && d.hasAnalysis then .ok (some d)
      else tool_document_generation_loop oracle remaining (k + 1)

/-- `_tool_document_generation(question, model_name)` (lines 79-112). -/
def tool_document_generation (oracle : Nat → LlmResponse) :
    Except PyErr (Option DocResult) :=
  (tool_document_generation_loop oracle ENV_SYNTHESIS_INNER_MAX_RETRY_TIMES 0).map
    (Option.map fun d => { content := d.tool, analysis := d.analysis })

/-! ## Environment synthesis orchestration
(`_single_env_synthesis` / `synthesis_single_env`, step_04 lines 232-338)

The four stage functions and the sandbox are oracles; every oracle is
indexed by its own invocation counter so that re-invocations are observable.
`none` models a stage function returning `None` after its internal retries.
-/

structure QAPair where
  question : String
  answer : String
deriving DecidableEq, Repr

structure SandboxResult where
  status : String
  stdout : String
deriving DecidableEq, Repr

structure SynthOracle where
  doc_gen : Nat → Option String
  doc_scale : Nat → Option String
  call_gen : Nat → Option String
  deploy : Nat → Option String
  sandbox : String → SandboxResult

/-- Invocation counters for the stage oracles.  They instrument how many
times each stage function has been entered; they never influence control
flow. -/
structure SynthCounters where
  doc_gen_calls : Nat
  doc_scale_calls : Nat
  call_gen_calls : Nat
  deploy_calls : Nat
deriving DecidableEq, Repr

def SynthCounters.init : SynthCounters := ⟨0, 0, 0, 0⟩

/-- The `ret_dict["data"]` payload built by `_single_env_synthesis`. -/
structure EnvData where
  tool_document : Option String
  tool_call_statement : Option String
  code : Option String
  tool_call_ans : Option String
deriving DecidableEq, Repr

/-- `final_code = f"{cur_code}\nprint({call_statement})"` (line 286). -/
def mk_final_code (code call : String) : String :=
  code ++ "\nprint(" ++ call ++ ")"

/--
The validation loop of `_single_env_synthesis` (lines 267-305): while
`try_times < ENV_SYNTHESIS_INNER_MAX_RETRY_TIMES`, re-run stage 3 (call
statement) and stage 4 (deployment) against the *fixed* scaled document
`doc`, compose the final code, submit it to the sandbox, and accept iff the
status is `"Success"` and the expected answer occurs in stdout.
`remaining = ENV_SYNTHESIS_INNER_MAX_RETRY_TIMES - try_times`.
-/
def env_validation_loop (qa : QAPair) (o : SynthOracle) (doc : String) :
    Nat → SynthCounters → Option EnvData × SynthCounters
  | 0, c => (none, c)
  | remaining + 1, c =>
    let call? := o.call_gen c.call_gen_calls
    let c := { c with call_gen_calls := c.call_gen_calls + 1 }
    match call? with
    | none => env_validation_loop qa o doc remaining c
    | some call =>
      let code? := o.deploy c.deploy_calls
      let c := { c with deploy_calls := c.deploy_calls + 1 }
      match code? with
      | none => env_validation_loop qa o doc remaining c
      | some code =>
        let call_ans := o.sandbox (mk_final_code code call)
        if call_ans.status == "Success" && pyIn qa.answer call_ans.stdout then
          (some { tool_document := some doc
                  tool_call_statement := some call
                  code := some code
                  tool_call_ans := some call_ans.stdout }, c)
        else
          env_validation_loop qa o doc remaining c

/--
`_single_env_synthesis(q_a_pairs, model_name)` (lines 232-315): stage 1
(doc generation) and stage 2 (complexity scaling) run once; on their
failure the function returns `None`; then the validation loop runs with the
scaled document held fixed.
-/
def single_env_synthesis (qa : QAPair) (o : SynthOracle) (c : SynthCounters) :
    Option EnvData × SynthCounters :=
  let doc0? := o.doc_gen c.doc_gen_calls
  let c := { c with doc_gen_calls := c.doc_gen_calls + 1 }
  match doc0? with
  | none => (none, c)
  | some _doc0 =>
    let doc? := o.doc_scale c.doc_scale_calls
    let c := { c with doc_scale_calls := c.doc_scale_calls + 1 }
    match doc? with
    | none => (none, c)
    | some doc =>
      env_validation_loop qa o doc ENV_SYNTHESIS_INNER_MAX_RETRY_TIMES c

/--
The outer loop of `synthesis_single_env` (lines 318-338): re-run the whole
`_single_env_synthesis` (stages 1-4) until it succeeds, at most
`ENV_SYNTHESIS_OUTER_MAX_RETRY_TIMES` times.
`remaining = ENV_SYNTHESIS_OUTER_MAX_RETRY_TIMES - try_times`.
-/
def synthesis_outer_loop (qa : QAPair) (o : SynthOracle) :
    Nat → SynthCounters → Option EnvData × SynthCounters
  | 0, c => (none, c)
  | remaining + 1, c =>
    match single_env_synthesis qa o c with
    | (some r, c') => (some r, c')
    | (none, c') => synthesis_outer_loop qa o remaining c'

/-- `synthesis_single_env(q_a_pairs, model_name, ...)`. -/
def synthesis_single_env (qa : QAPair) (o : SynthOracle) :
    Option EnvData × SynthCounters :=
  synthesis_outer_loop qa o ENV_SYNTHESIS_OUTER_MAX_RETRY_TIMES .init

/-! ## Merge-engine pre-check `_check_env`
(env_synthesis/src/step_05_merge_tools.py lines 672-699) -/

/-- Which of the keys `name`/`description`/`parameters` the
`tool_document` dict carries. -/
structure ToolDocPresence where
  has_name : Bool
  has_description : Bool
  has_parameters : Bool
deriving DecidableEq, Repr

/-- The `env_synthesis_result.data` section of a per-uuid env result as
inspected by `_check_env` and rewritten by `post_process_merge_tools`. -/
structure CheckEnvData where
  tool_document : Option ToolDocPresence
  tool_call_statement : Option String
  code : Option String
  tool_call_ans : Option String
deriving DecidableEq, Repr

/-- One non-null `env_result[k]` value.  `merge_flag` is `true` iff the key
`merge_flag` is present (it is only ever set to `True`, by
post-processing). -/
structure CheckEnvEntry where
  question : String
  answer : String
  env_synthesis_result : Option CheckEnvData
  merge_flag : Bool
deriving DecidableEq, Repr

/-- The body of `_check_env`'s loop for one `(k, v)` item. -/
def check_env_entry (k : String) (v : Option CheckEnvEntry) : Bool :=
  match v with
  | none => true
  | some e =>
    if k != "wrong_info" then
      match e.env_synthesis_result with
      | none => true
      | some d =>
        match d.tool_call_statement, d.code, d.tool_document, d.tool_call_ans with
        | some stmt, some _code, some doc, some ans =>
          doc.has_name && doc.has_description && doc.has_parameters &&
          !(pyIn "http" stmt) && pyIn e.answer ans
        | _, _, _, _ => false
    else true

/-- `_check_env(data_dict)`: iterate `data_dict["env_result"].items()` and
return `False` on the first violation.  The dict is modelled as an
association list. -/
def check_env (env_result : List (String × Option CheckEnvEntry)) : Bool :=
  env_result.all fun kv => check_env_entry kv.1 kv.2

/-! ## Cluster-merge post-processing
(`post_process_merge_tools` / tail of `merge_tools`, step_05 lines 702-829)

Only the data reached by the claims is modelled: the `clusters` list, the
`aggregated_env` list produced by `merge_single_cluster_code`, and the
`env_result` dict.  Python's `str(_uuids)` dict key is modelled by keying
on the uuid list itself (`str` is injective on lists of strings). -/

structure TestResult where
  uuid : String
  status : String
  stdout : String
deriving DecidableEq, Repr

structure AggEnv where
  uuids : List String
  merged_code : String
  tool_document : Option ToolDocPresence
  tool_call_statements : List (String × String)
  test_results : List TestResult
deriving DecidableEq, Repr

structure MergeCluster where
  uuids : List String
deriving DecidableEq, Repr

structure MergeData where
  uuid : String
  clusters : List MergeCluster
  aggregated_env : List AggEnv
  env_result : List (String × Option CheckEnvEntry)
deriving DecidableEq, Repr

/-- Update the association list `env` at key `k` (all occurrences; keys are
unique in the modelled dicts). -/
def updateEnvAt (env : List (String × Option CheckEnvEntry)) (k : String)
    (f : Option CheckEnvEntry → Option CheckEnvEntry) :
    List (String × Option CheckEnvEntry) :=
  env.map fun kv => if kv.1 == k then (kv.1, f kv.2) else kv

/--
The per-test-result body of `post_process_merge_tools` (lines 740-757)
threaded over one cluster's `test_results`; `.ok none` is the `return None`
drop.  For a `"passed"` result the env entry for `test_result["uuid"]` is
rewritten with the merged code / document / call statement and
`merge_flag = True` (lines 744-749), and then the record is dropped if the
expected answer is not a substring of the recorded stdout (lines 750-752).
Any non-passed result drops the record (lines 754-757).  Python raises
`KeyError`/`TypeError` if the env entry or the statement for the uuid is
missing or null; those paths are surfaced as `.error`.
-/
def process_test_results (agg : AggEnv)
    (env : List (String × Option CheckEnvEntry)) :
    List TestResult → Except PyErr (Option (List (String × Option CheckEnvEntry)))
  | [] => .ok (some env)
  | tr :: rest =>
    if tr.status == "passed" then
      match (env.find? (fun kv => kv.1 == tr.uuid)) with
      | none => .error (.keyError tr.uuid)
      | some (_, none) => .error (.typeError "NoneType is not subscriptable")
      | some (_, some e) =>
        match e.env_synthesis_result with
        | none => .error (.typeError "NoneType is not subscriptable")
        | some d =>
          match agg.tool_call_statements.find? (fun kv => kv.1 == tr.uuid) with
          | none => .error (.keyError tr.uuid)
          | some (_, stmt) =>
            let d' : CheckEnvData :=
              { d with code := some agg.merged_code
                       tool_document := agg.tool_document
                       tool_call_statement := some stmt }
            let e' : CheckEnvEntry :=
              { e with env_synthesis_result := some d', merge_flag := true }
            let env' := updateEnvAt env tr.uuid (fun _ => some e')
            if !(pyIn e.answer tr.stdout) then
              .ok none
            else
              process_test_results agg env' rest
    else
      .ok none

/-- The cluster loop of `post_process_merge_tools` (lines 727-757). -/
def process_clusters (aggregated_env : List AggEnv)
    (env : List (String × Option CheckEnvEntry)) :
    List MergeCluster → Except PyErr (Option (List (String × Option CheckEnvEntry)))
  | [] => .ok (some env)
  | cl :: rest =>
    if cl.uuids.length == 1 then
      process_clusters aggregated_env env rest
    else
      match aggregated_env.find? (fun a => a.uuids == cl.uuids) with
      | none => .error (.keyError "aggregated_env")
      | some agg =>
        match process_test_results agg env agg.test_results with
        | .error e => .error e
        | .ok none => .ok none
        | .ok (some env') => process_clusters aggregated_env env' rest

/-- `post_process_merge_tools(data)` (lines 702-761).  The final
`merge_all_passed_flag` test always sees the flag equal to `1` because
every failure already returned `None` inside the loop. -/
def post_process_merge_tools (data : MergeData) :
    Except PyErr (Option MergeData) :=
  match process_clusters data.aggregated_env data.env_result data.clusters with
  | .error e => .error e
  | .ok none => .ok none
  | .ok (some env') => .ok (some { data with env_result := env' })

/--
The tail of `merge_tools` after cluster merging (step_05 lines 824-829):
`data = post_process_merge_tools(data)` followed by
`logger.info(f"post process merge tools for data: {data['uuid']} done")`.
When post-processing returned `None`, that f-string subscripts `None`
and raises `TypeError` (and the `logger.warning` on line 827 would do the
same), so the `return None` on line 828 is never reached.
-/
def merge_tools_post (data : MergeData) : Except PyErr (Option MergeData) :=
  match post_process_merge_tools data with
  | .error e => .error e
  | .ok none => .error (.typeError "NoneType is not subscriptable")
  | .ok (some d') => .ok (some d')

/-! ## Agent-runner checkpoint/resume
(trajectory_synthesis/src/3_interaction/interact_qwen_agent.py)

A record's `query_info`: `augmented_question = none` models a missing or
empty `augmented_query_info` dict as well as a missing `augmented_question`
key (all are falsy in `extract_query`). -/

structure QueryInfo where
  generated_question : String
  augmented_question : Option String
deriving DecidableEq, Repr

/-- A Python `str.strip()` whitespace character. -/
def isPySpace (c : Char) : Bool :=
  c == ' ' || c == '\t' || c == '\n' || c == '\r' || c == '\x0b' || c == '\x0c'

/-- Python's `str.strip()`: drop leading and trailing whitespace. -/
def py_strip (s : String) : String :=
  String.mk (((s.toList.dropWhile isPySpace).reverse.dropWhile isPySpace).reverse)

/-- A `\w` character of the tag regex (ASCII approximation of Python's
unicode-aware `\w`). -/
def isWordChar (c : Char) : Bool := c.isAlphanum || c == '_'

/--
The tag-stripping step of `extract_query` (lines 100-103): Python matches
`re.match(r'^<(\w+)>(.*)</\1>$', query, re.DOTALL)` on the stripped query
and keeps group 2 stripped.  Anchored at both ends, the regex matches
exactly when the string decomposes as `<tag>` ++ body ++ `</tag>` with a
nonempty word-character tag.
-/
def strip_wrapping_tag (q : String) : String :=
  match q.toList with
  | '<' :: rest =>
    let tag := rest.takeWhile isWordChar
    if tag.isEmpty then q
    else
      match rest.drop tag.length with
      | '>' :: body =>
        let closing := '<' :: '/' :: (tag ++ ['>'])
        if closing.isSuffixOf body then
          py_strip (String.mk (body.take (body.length - closing.length)))
        else q
      | _ => q
  | _ => q

/-- `extract_query(query_info)` (lines 85-104). -/
def extract_query (qi : QueryInfo) : String :=
  let query :=
    match qi.augmented_question with
    | none => qi.generated_question
    | some a => if a == "" then qi.generated_question else a
  strip_wrapping_tag (py_strip query)

/-- An input record: everything outside `query_info` (mcp_info, graph,
chain_info, trajectory, ...) is collapsed into `payload`; none of it is
read by the resume logic. -/
structure TaskRecord where
  query_info : QueryInfo
  payload : String
deriving DecidableEq, Repr

/-- `load_data(args)` (lines 284-309): collect the extracted queries of the
existing output file into `query_set` and keep only the input records whose
query is not in it. -/
def load_data (output_lines input_lines : List TaskRecord) : List TaskRecord :=
  let query_set := output_lines.map fun r => extract_query r.query_info
  input_lines.filter fun r => !(query_set.contains (extract_query r.query_info))

/--
One run of the stage after an interruption: `main` opens the output file in
append mode and `process_items_parallel` writes exactly one line per item
returned by `load_data` (both the success and the error path of
`process_item` write the record, with `query_info` unchanged — only a
`trajectory` field is added, which lives in `payload` here).  Lines are
committed in completion order; the theorems below only speak about the
multiset of query keys, which completion order cannot change, so the
appended block is modelled in input order.
-/
def resume_run (output_lines input_lines : List TaskRecord) : List TaskRecord :=
  output_lines ++ load_data output_lines input_lines

/-! ## Graph/chain builder
(trajectory_synthesis/src/1_graph_build/build/data_loader.py and
2_get_sub_chains.py)

The insertion-ordered `nodes` dict with its mutable adjacency is modelled
as an association list from tool name to the ordered `nexts` name list.
Only the tool names matter to the claims, so `tool_list` is a list of
names. -/

/-- Insertion-ordered adjacency: node name to ordered list of successor
names. -/
abbrev ToolGraph := List (String × List String)

def graph_nodes (g : ToolGraph) : List String := g.map fun e => e.1

def is_node (g : ToolGraph) (n : String) : Bool :=
  (g.find? fun e => e.1 == n).isSome

/-- `node.nexts` of the node named `n` (empty for an unknown name). -/
def node_nexts (g : ToolGraph) (n : String) : List String :=
  ((g.find? fun e => e.1 == n).map fun e => e.2).getD []

/-- `nodes[tool.name] = Node(tool=tool)` (data_loader.py lines 62-64): a
duplicate name overwrites the fresh empty node with another fresh empty
node while keeping the first insertion position, so it is a no-op here. -/
def insert_node (g : ToolGraph) (name : String) : ToolGraph :=
  if is_node g name then g else g ++ [(name, [])]

/-- `last_node.add_next(cur_node)` (data_loader.py lines 35-38): append the
successor only if its name is not already present. -/
def add_edge (g : ToolGraph) (src dst : String) : ToolGraph :=
  g.map fun e =>
    if e.1 == src then (e.1, if e.2.contains dst then e.2 else e.2 ++ [dst])
    else e

/-- The inner loop of `build_graph` over one detected chain (data_loader.py
lines 65-75).  An unknown tool name is skipped with `continue`, leaving
`last_node` unchanged. -/
def add_chain (g : ToolGraph) (last : Option String) :
    List String → ToolGraph
  | [] => g
  | tool_name :: rest =>
    if is_node g tool_name then
      match last with
      | some l => add_chain (add_edge g l tool_name) (some tool_name) rest
      | none => add_chain g (some tool_name) rest
    else
      add_chain g last rest

/-- `build_graph(group_info, tool_list, chains)` (data_loader.py lines
57-98), restricted to the adjacency structure. -/
def build_graph (tool_list : List String) (chains : List (List String)) :
    ToolGraph :=
  chains.foldl (fun g ch => add_chain g none ch)
    (tool_list.foldl insert_node [])

/--
The `dfs` of `get_chain` (2_get_sub_chains.py lines 36-50): emit the
current chain when `length` reaches 0, else extend through every successor
in insertion order.  `walks_from g n rem` is the list of chains of exactly
`rem + 1` nodes starting at `n`, in DFS emission order.  There is no
visited set: nodes may repeat along a chain.
-/
def walks_from (g : ToolGraph) (n : String) : Nat → List (List String)
  | 0 => [[n]]
  | rem + 1 =>
    (node_nexts g n).flatMap fun nx => (walks_from g nx rem).map fun c => n :: c

/-- `get_chain(node, length)` (lines 29-51): `dfs(node, length - 1)`.  For
`length = 0` Python calls `dfs(node, -1)`, which never emits (and recurses
until it runs off the graph); it is modelled as emitting nothing. -/
def get_chain (g : ToolGraph) (n : String) : Nat → List (List String)
  | 0 => []
  | len + 1 => walks_from g n len

/-- `get_chins_from_graph(graph, length)` (lines 54-61). -/
def get_chains_from_graph (g : ToolGraph) (len : Nat) : List (List String) :=
  (graph_nodes g).flatMap fun n => get_chain g n len

/-- The sub-chain enumeration of `main` (lines 88-93):
`for length in range(min_length, max_length + 1)`. -/
def sub_chains (g : ToolGraph) (min_length max_length : Nat) :
    List (List String) :=
  (List.range' min_length (max_length + 1 - min_length)).flatMap fun len =>
    get_chains_from_graph g len

/-- Specification-side predicate: the consecutive elements of `c` all
follow edges of `g`. -/
def steps_ok (g : ToolGraph) : List String → Bool
  | [] => true
  | [_] => true
  | x :: y :: rest => (node_nexts g x).contains y && steps_ok g (y :: rest)

/-- Specification-side predicate: `c` is a walk of `g` — nonempty, starting
at a node of the graph, and following edges. -/
def is_walk (g : ToolGraph) : List String → Bool
  | [] => false
  | x :: rest => is_node g x && steps_ok g (x :: rest)

/-! ## Reward scorer (trajectory_synthesis/src/4_reward/reward.py)

Trajectory messages as read by the scorers.  Falsy string fields
(`tool_call_id`, a tool call's `id` or function `name`) are modelled by
`""`, which covers both a missing key and an empty value — the code only
ever tests them for truthiness. -/

/-- One element of an assistant message's `tool_calls` list.  `name = ""`
models a missing `function` object or a missing/empty `function.name`. -/
structure MsgToolCall where
  id : String
  name : String
deriving DecidableEq, Repr

structure RewardMsg where
  role : String
  content : String
  /-- `some l` iff the key `tool_calls` is present. -/
  tool_calls : Option (List MsgToolCall)
  /-- `""` iff `msg.get('tool_call_id')` is falsy. -/
  tool_call_id : String
deriving DecidableEq, Repr

def SAFE_TOOL_CALL_SCORE : ℚ := 1

def SAFE_FINAL_ANSWER_SCORE_CORRELATION : ℚ := 1

/-- The `tool_call_map` built by `get_tool_call_score` (reward.py lines
574-584): last writer wins, like a Python dict assignment. -/
def build_tool_call_map (traj : List RewardMsg) : List (String × String) :=
  traj.foldl
    (fun m msg =>
      match msg.role == "assistant", msg.tool_calls with
      | true, some tcs =>
        tcs.foldl
          (fun m tc =>
            if tc.id != "" && tc.name != "" then
              (m.filter fun kv => kv.1 != tc.id) ++ [(tc.id, tc.name)]
            else m)
          m
      | _, _ => m)
    []

/-- The tool messages judged by `get_tool_call_score` (lines 590-602): role
`tool` and a truthy `tool_call_id`. -/
def counted_tool_msgs (traj : List RewardMsg) : List RewardMsg :=
  traj.filter fun m => m.role == "tool" && m.tool_call_id != ""

/-- Result of `get_tool_call_score`: the returned `score` plus the parts of
`extra_info` the claims speak about. -/
structure ToolCallScoreResult where
  score : ℚ
  is_safe_score : Bool
  success_times : Nat
  fail_times : Nat
deriving DecidableEq, Repr

/--
`get_tool_call_score(query_data, model_name)` (reward.py lines 561-653).
`judge i` is the `tool_status` truthiness delivered (in order, via
`gather`) for the i-th counted tool message; a judge exception is already a
`True` status in the source (lines 609-611), so every counted message gets
a Bool.  `trajectory[1]` raises `IndexError` on a trajectory shorter than
two messages.  With `total_calls = 0` the safe default is returned with
`is_safe_score = 1`; otherwise the score is
`(1.0 * total_success + 0.5 * total_fail) / total_calls` (line 624,
modelled in exact rational arithmetic).
-/
def get_tool_call_score (traj : List RewardMsg) (judge : Nat → Bool) :
    Except PyErr ToolCallScoreResult :=
  if traj.length < 2 then .error (.indexError "list index out of range")
  else
    let n := (counted_tool_msgs traj).length
    let statuses := (List.range n).map judge
    let total_success := (statuses.filter fun b => b == true).length
    let total_fail := (statuses.filter fun b => b == false).length
    if n > 0 then
      .ok { score := (1 * (total_success : ℚ) + (1/2) * (total_fail : ℚ)) / (n : ℚ)
            is_safe_score := false
            success_times := total_success
            fail_times := total_fail }
    else
      .ok { score := SAFE_TOOL_CALL_SCORE
            is_safe_score := true
            success_times := 0
            fail_times := 0 }

/-- Is `c` in the CJK range `'一' <= char <= '鿿'` tested on
reward.py line 323? -/
def is_cjk (c : Char) : Bool := 0x4e00 ≤ c.toNat && c.toNat ≤ 0x9fff

/-- Python's `char.isalpha()` restricted to the alphabetic characters that
occur in the claims' inputs (ASCII letters; Python's version is
unicode-aware, but the CJK branch is tested first in the source so CJK
characters never reach it). -/
def py_isalpha (c : Char) : Bool := c.isAlpha

/--
`detect_language(text)` (reward.py lines 310-341).  Characters in the CJK
range count as Chinese, other alphabetic characters as English; all other
characters are ignored.  `chinese_ratio > 0.6` and `english_ratio > 0.7`
are evaluated in exact arithmetic (`10 * chinese > 6 * total` etc.); the
empty-or-non-string guard and the `total_chars == 0` case both return
`"unknown"`.
-/
def detect_language (text : String) : String :=
  let chinese := (text.toList.filter is_cjk).length
  let english := (text.toList.filter fun c => !is_cjk c && py_isalpha c).length
  let total := chinese + english
  if total == 0 then "unknown"
  else if 10 * chinese > 6 * total then "zh"
  else if 10 * english > 7 * total then "en"
  else "mixed"

/-- `_check_language_consistency_final_answer(query, answer)` (reward.py
lines 305-351), returning the Python ints 1/0. -/
def check_language_consistency (query answer : String) : Nat :=
  let query_lang := detect_language query
  let answer_lang := detect_language answer
  if query_lang == "unknown" || answer_lang == "unknown" then 1
  else if query_lang == answer_lang then 1
  else 0

/-- Result of the final-answer correlation judge: the returned score, the
safe-score flag, and how many LLM calls (`get_model_ans`) were made. -/
structure CorrelationResult where
  score : ℚ
  is_safe_score : Bool
  llm_calls : Nat
deriving DecidableEq, Repr

/--
`_evaluate_final_answer_correlation_final_answer(query_data, model_dict)`
(reward.py lines 354-389).  `query = trajectory[1]['content']` and
`answer = trajectory[-1]['content']`; fewer than two messages raise
`IndexError`.  If the language-consistency check returns 0, the judge
returns score `0.0` before the prompt is built — no LLM call.  Otherwise
one `get_model_ans` call is made; `judge = some s` is a response parsing to
score `s`, `judge = none` a parse failure handled with the safe default.
-/
def evaluate_final_answer_correlation (traj : List RewardMsg)
    (judge : Option ℚ) : Except PyErr CorrelationResult :=
  match traj with
  | m0 :: m1 :: rest =>
    let query := m1.content
    let answer := (List.getLastD (m0 :: m1 :: rest) m1).content
    if check_language_consistency query answer == 0 then
      .ok { score := 0, is_safe_score := false, llm_calls := 0 }
    else
      match judge with
      | some s => .ok { score := s, is_safe_score := false, llm_calls := 1 }
      | none =>
        .ok { score := SAFE_FINAL_ANSWER_SCORE_CORRELATION
              is_safe_score := true
              llm_calls := 1 }
  | _ => .error (.indexError "list index out of range")

/-! ## Outbound message normalizer `convert_messages_to_dicts`
(trajectory_synthesis/src/3_interaction/qwen_agent/llm/oai.py lines 261-326)

Modelled from the spec: the `Message` schema and its `model_dump` live in
the external `qwen_agent` package (only `llm/oai.py` is vendored here);
per the spec's normalization contract (§4.2), a message is a dict of role,
content and optional `function_call` / `name` / `tool_call_id`, where an
unset optional field produces no key (`model_dump` excludes `None`), so
`msg.get("function_call", {}) != {}` holds exactly when the message carries
a function call. -/

structure MsgFunctionCall where
  name : String
  arguments : String
deriving DecidableEq, Repr

/-- An internal message as dumped to a dict.  `Option` fields model
possibly-absent keys. -/
structure AgentMsg where
  role : String
  content : String
  function_call : Option MsgFunctionCall
  name : Option String
  tool_call_id : Option String
deriving DecidableEq, Repr

/-- One element of the OpenAI-format `tool_calls` array built on oai.py
lines 285-292. -/
structure OutToolCall where
  id : String
  typ : String
  function : MsgFunctionCall
deriving DecidableEq, Repr

/-- A converted outbound dict.  `tool_calls = []` models an absent
`tool_calls` key (the source only sets the key to a nonempty list). -/
structure OutMsg where
  role : String
  content : String
  function_call : Option MsgFunctionCall
  name : Option String
  tool_call_id : Option String
  tool_calls : List OutToolCall
deriving DecidableEq, Repr

/-- Plain dict copy of a message. -/
def AgentMsg.toOut (m : AgentMsg) : OutMsg :=
  { role := m.role, content := m.content, function_call := m.function_call
    name := m.name, tool_call_id := m.tool_call_id, tool_calls := [] }

/-- The run of messages consumed by the inner `while` on oai.py line 278:
the maximal prefix of the messages after the current assistant message that
are assistant messages carrying a `function_call`. -/
def fc_run (l : List AgentMsg) : List MsgFunctionCall :=
  (l.takeWhile fun m => m.role == "assistant" && m.function_call.isSome).filterMap
    fun m => m.function_call

/-- The `tool_call_list` built on lines 279-294, with synthesized ids
`call_{tool_call_idx}_{fn_name}`. -/
def mk_tool_calls (fcs : List MsgFunctionCall) : List OutToolCall :=
  fcs.enum.map fun p =>
    { id := "call_" ++ toString p.1 ++ "_" ++ p.2.name
      typ := "function"
      function := p.2 }

/-- The back-fill search of lines 313-321: scan the already-converted
messages from the end for an assistant message whose `tool_calls` contain a
call with the given function name and return that call's id.  An assistant
message with `tool_calls` but no matching name does not stop the scan
(the inner `break` fires only after a match). -/
def find_tool_call_id (converted : List OutMsg) (tool_name : String) :
    Option String :=
  (converted.reverse.filterMap fun m =>
    if m.role == "assistant" && !m.tool_calls.isEmpty then
      (m.tool_calls.find? fun tc => tc.function.name == tool_name).map
        fun tc => tc.id
    else none).head?

/--
The `while i < len(messages)` loop of `convert_messages_to_dicts`,
instrumented with fuel: `none` means the loop is still running after `fuel`
iterations.  Faithful detail: the loop body handles the roles `system`,
`user`, `assistant` and `function`; a message with any other role (for
example `tool`) matches no branch, so the iteration ends without advancing
`i` and the loop never terminates.
-/
def convert_messages_loop (messages : List AgentMsg) :
    Nat → Nat → List OutMsg → Option (List OutMsg)
  | 0, _, _ => none
  | fuel + 1, i, converted =>
    if h : i < messages.length then
      let m := messages.get ⟨i, h⟩
      if m.role == "system" || m.role == "user" then
        convert_messages_loop messages fuel (i + 1) (converted ++ [m.toOut])
      else if m.role == "assistant" then
        let run := fc_run (messages.drop (i + 1))
        let tool_call_list := mk_tool_calls run
        if !tool_call_list.isEmpty then
          convert_messages_loop messages fuel (i + run.length + 1)
            (converted ++ [{ m.toOut with tool_calls := tool_call_list }])
        else
          convert_messages_loop messages fuel (i + 1) (converted ++ [m.toOut])
      else if m.role == "function" then
        let base := { m.toOut with role := "tool" }
        let withId :=
          match m.tool_call_id, m.name with
          | none, some tool_name =>
            match find_tool_call_id converted tool_name with
            | some id => { base with tool_call_id := some id }
            | none => base
          | _, _ => base
        convert_messages_loop messages fuel (i + 1) (converted ++ [withId])
      else
        convert_messages_loop messages fuel i converted
    else
      some converted

/-- `convert_messages_to_dicts(messages)` run for at most `fuel` loop
iterations. -/
def convert_messages_to_dicts (messages : List AgentMsg) (fuel : Nat) :
    Option (List OutMsg) :=
  convert_messages_loop messages fuel 0 []

/-! ## Concrete inputs used by witnesses and counterexamples -/

def synth_qa : QAPair := { question := "What is 12 x 7?", answer := "84" }

/-- Every stage succeeds, but the sandbox always reports failure: the
synthesizer can never accept. -/
def synth_fail_oracle : SynthOracle :=
  { doc_gen := fun _ => some "doc"
    doc_scale := fun _ => some "scaled doc"
    call_gen := fun _ => some "mul(12, 7)"
    deploy := fun _ => some "def mul(a, b): return a * b"
    sandbox := fun _ => { status := "Failed", stdout := "" } }

/-- Every stage succeeds and the sandbox prints the expected answer. -/
def synth_ok_oracle : SynthOracle :=
  { doc_gen := fun _ => some "doc"
    doc_scale := fun _ => some "scaled doc"
    call_gen := fun _ => some "mul(12, 7)"
    deploy := fun _ => some "def mul(a, b): return a * b"
    sandbox := fun _ => { status := "Success", stdout := "84\n" } }

/-- An env_result entry as produced by a successful synthesis. -/
def demo_env_entry : CheckEnvEntry :=
  { question := "What is 12 x 7?"
    answer := "84"
    env_synthesis_result := some
      { tool_document := some ⟨true, true, true⟩
        tool_call_statement := some "mul(12, 7)"
        code := some "def mul(a, b): return a * b"
        tool_call_ans := some "84\n" }
    merge_flag := false }

/-- A second entry for the merge inputs. -/
def demo_env_entry_2 : CheckEnvEntry :=
  { question := "What is 3 x 5?"
    answer := "15"
    env_synthesis_result := some
      { tool_document := some ⟨true, true, true⟩
        tool_call_statement := some "mul(3, 5)"
        code := some "def mul(a, b): return a * b"
        tool_call_ans := some "15\n" }
    merge_flag := false }

/-- A record whose two-member cluster has one failed verification test. -/
def merge_fail_data : MergeData :=
  { uuid := "rec-1"
    clusters := [⟨["1", "2"]⟩]
    aggregated_env :=
      [{ uuids := ["1", "2"]
         merged_code := "def mul(a, b): return a * b"
         tool_document := some ⟨true, true, true⟩
         tool_call_statements := [("1", "mul(12, 7)"), ("2", "mul(3, 5)")]
         test_results := [⟨"1", "passed", "84\n"⟩, ⟨"2", "failed", ""⟩] }]
    env_result := [("1", some demo_env_entry), ("2", some demo_env_entry_2)] }

/-- A record whose cluster tests all "passed" but whose recorded stdout for
uuid 2 does not contain the expected answer `15`. -/
def merge_mismatch_data : MergeData :=
  { uuid := "rec-2"
    clusters := [⟨["1", "2"]⟩]
    aggregated_env :=
      [{ uuids := ["1", "2"]
         merged_code := "def mul(a, b): return a * b"
         tool_document := some ⟨true, true, true⟩
         tool_call_statements := [("1", "mul(12, 7)"), ("2", "mul(3, 5)")]
         test_results := [⟨"1", "passed", "84\n"⟩, ⟨"2", "passed", "wrong\n"⟩] }]
    env_result := [("1", some demo_env_entry), ("2", some demo_env_entry_2)] }

/-- Two distinct input records sharing one extracted user query. -/
def dup_record_a : TaskRecord := ⟨⟨"Find the rent of flat 12", none⟩, "mcp-A"⟩

def dup_record_b : TaskRecord := ⟨⟨"Find the rent of flat 12", none⟩, "mcp-B"⟩

/-- The output prefix written before the interruption: the first record,
with a trajectory attached (the payload changes, the query does not). -/
def dup_output_prefix : List TaskRecord :=
  [⟨⟨"Find the rent of flat 12", none⟩, "mcp-A+trajectory"⟩]

/-- Resume inputs with pairwise distinct extracted queries. -/
def distinct_record_a : TaskRecord := ⟨⟨"List the stations near flat 7", none⟩, "mcp-A"⟩

def distinct_record_b : TaskRecord := ⟨⟨"<question>Find the rent of flat 12</question>", none⟩, "mcp-B"⟩

def distinct_output_prefix : List TaskRecord :=
  [⟨⟨"List the stations near flat 7", none⟩, "mcp-A+trajectory"⟩]

/-- A four-message trajectory with exactly one judged tool message. -/
def demo_reward_traj : List RewardMsg :=
  [ { role := "system", content := "sys", tool_calls := none, tool_call_id := "" }
  , { role := "user", content := "What is 12 x 7?", tool_calls := none, tool_call_id := "" }
  , { role := "assistant", content := ""
      tool_calls := some [⟨"call_0_mul", "mul"⟩], tool_call_id := "" }
  , { role := "tool", content := "84", tool_calls := none, tool_call_id := "call_0_mul" } ]

/-- A trajectory whose user query (index 1) is English and whose final
answer is Chinese. -/
def demo_lang_traj : List RewardMsg :=
  [ { role := "system", content := "sys", tool_calls := none, tool_call_id := "" }
  , { role := "user", content := "What is the population of Tokyo", tool_calls := none, tool_call_id := "" }
  , { role := "assistant", content := "人口一千四百万", tool_calls := none, tool_call_id := "" } ]

/-- A message with role `tool`, which `convert_messages_to_dicts` never
consumes. -/
def stray_tool_msg : AgentMsg :=
  { role := "tool", content := "84", function_call := none
    name := none, tool_call_id := none }

/-- An assistant turn followed by two assistant messages carrying function
calls. -/
def fc_messages : List AgentMsg :=
  [ { role := "user", content := "hi", function_call := none, name := none, tool_call_id := none }
  , { role := "assistant", content := "calling", function_call := none, name := none, tool_call_id := none }
  , { role := "assistant", content := "", function_call := some ⟨"mul", "\x7b\"a\": 12\x7d"⟩
      name := none, tool_call_id := none }
  , { role := "assistant", content := "", function_call := some ⟨"add", "\x7b\"a\": 3\x7d"⟩
      name := none, tool_call_id := none } ]

/-! # Theorems -/

/--
C5.  The claim says `get_openai_model_ans` retries a failing call at most
`API_MAX_RETRY_TIMES = 10` times and then returns the null payload.  In the
source, `cur_retry = 0` is the first statement inside the `while True`
body, so the counter is reset on every iteration and the exhaustion guard
`cur_retry > retry_times` compares `1 > 10` forever: under a fault model
where every attempt raises a non-context-overflow error, the loop never
returns, for any number of iterations.  The context-overflow early return
does hold (second conjunct).
-/
theorem get_openai_model_ans_never_exhausts_retries :
    (∀ fuel k,
      get_openai_model_ans_loop (fun _ => .raise "Connection reset by peer") fuel k
        = none)
    ∧ (∀ k,
      get_openai_model_ans_loop (fun _ => .raise contextOverflowMarker) 1 k
        = some none) := by
  constructor
  · intro fuel
    induction fuel with
    | zero => intro k; rfl
    | succ n ih =>
      intro k
      have hov : pyIn contextOverflowMarker "Connection reset by peer" = false := by
        decide
      simp only [get_openai_model_ans_loop, API_MAX_RETRY_TIMES, hov]
      exact ih (k + 1)
  · intro k
    have hov : pyIn contextOverflowMarker contextOverflowMarker = true := by decide
    simp [get_openai_model_ans_loop, API_MAX_RETRY_TIMES, hov]

/--
C9.  The claim says every synthesizer stage function terminates within 5
attempts returning its payload or `None`, never raising, with a parse
failure counting as one failed attempt.  In `_tool_document_generation`
the very first parse failure raises instead: on unparsable text,
`parse_ans` returns `None` and line 96 evaluates `"tool" in None`, a
`TypeError`; on the client's null payload, `parse_ans` itself evaluates
`"</think>" in None`.  (The guard present in `_tool_deployment` lines
203-206 is the intended behavior and is missing here.)
-/
theorem tool_document_generation_raises_on_parse_failure :
    tool_document_generation (fun _ => .unparsable "hello")
      = .error (.typeError "argument of type NoneType is not iterable")
    ∧ tool_document_generation (fun _ => .nullResp)
      = .error (.typeError "argument of type NoneType is not iterable") :=
  ⟨rfl, rfl⟩

/--
C6.  The claim says that when post-processing finds a failed cluster test
or an expected answer missing from the recorded stdout, `merge_tools` drops
the record by returning null.  `post_process_merge_tools` does return
`None` in both situations (first and third conjunct), but `merge_tools`
then formats `data['uuid']` with `data = None` on line 825 and raises
`TypeError` instead of reaching its `return None` (second and fourth
conjunct).
-/
theorem merge_tools_raises_instead_of_returning_null :
    post_process_merge_tools merge_fail_data = .ok none
    ∧ merge_tools_post merge_fail_data
        = .error (.typeError "NoneType is not subscriptable")
    ∧ post_process_merge_tools merge_mismatch_data = .ok none
    ∧ merge_tools_post merge_mismatch_data
        = .error (.typeError "NoneType is not subscriptable") :=
  ⟨rfl, rfl, rfl, rfl⟩

/--
C3 counterexample.  The claim says that after one document generation and
one complexity scaling, a validation loop of up to
`ENV_SYNTHESIS_OUTER_MAX_RETRY_TIMES = 15` iterations repeats only from
stage 3 with the document held fixed — under which document generation
would run exactly once however often validation fails.  With every stage
succeeding and the sandbox always failing, the code instead invokes
document generation (and scaling) 15 times, restarting the whole synthesis
each time, and invokes stage 3 only 5 times per document
(75 = 15 × 5 in total).
-/
theorem synthesis_regenerates_document_on_outer_retry :
    (synthesis_single_env synth_qa synth_fail_oracle).2
      = { doc_gen_calls := 15, doc_scale_calls := 15
          call_gen_calls := 75, deploy_calls := 75 }
    ∧ (15 : Nat) ≠ 1 :=
  ⟨rfl, by decide⟩

/-! ### Helper lemmas about the synthesis loops -/

theorem env_validation_loop_call_gen_le (qa : QAPair) (o : SynthOracle)
    (doc : String) : ∀ rem c,
    (env_validation_loop qa o doc rem c).2.call_gen_calls
      ≤ c.call_gen_calls + rem := by
  intro rem
  induction rem with
  | zero => intro c; simp [env_validation_loop]
  | succ n ih =>
    intro c
    simp only [env_validation_loop]
    cases hcall : o.call_gen c.call_gen_calls with
    | none =>
      dsimp only
      have h := ih { c with call_gen_calls := c.call_gen_calls + 1 }
      simp only at h
      omega
    | some call =>
      dsimp only
      cases hdep : o.deploy c.deploy_calls with
      | none =>
        dsimp only
        have h := ih { c with call_gen_calls := c.call_gen_calls + 1,
                              deploy_calls := c.deploy_calls + 1 }
        simp only at h
        omega
      | some code =>
        dsimp only
        by_cases hacc :
            ((o.sandbox (mk_final_code code call)).status == "Success"
              && pyIn qa.answer (o.sandbox (mk_final_code code call)).stdout) = true
        · rw [if_pos hacc]
          dsimp only
          omega
        · rw [if_neg hacc]
          have h := ih { c with call_gen_calls := c.call_gen_calls + 1,
                                deploy_calls := c.deploy_calls + 1 }
          simp only at h
          omega

theorem env_validation_loop_doc_gen_eq (qa : QAPair) (o : SynthOracle)
    (doc : String) : ∀ rem c,
    (env_validation_loop qa o doc rem c).2.doc_gen_calls = c.doc_gen_calls := by
  intro rem
  induction rem with
  | zero => intro c; simp [env_validation_loop]
  | succ n ih =>
    intro c
    simp only [env_validation_loop]
    cases hcall : o.call_gen c.call_gen_calls with
    | none => dsimp only; exact ih _
    | some call =>
      dsimp only
      cases hdep : o.deploy c.deploy_calls with
      | none => dsimp only; exact ih _
      | some code =>
        dsimp only
        by_cases hacc :
            ((o.sandbox (mk_final_code code call)).status == "Success"
              && pyIn qa.answer (o.sandbox (mk_final_code code call)).stdout) = true
        · rw [if_pos hacc]
        · rw [if_neg hacc]
          exact ih _

theorem env_validation_loop_sound (qa : QAPair) (o : SynthOracle)
    (doc : String) : ∀ rem c r c',
    env_validation_loop qa o doc rem c = (some r, c') →
    ∃ stdout code call,
      r = { tool_document := some doc, tool_call_statement := some call
            code := some code, tool_call_ans := some stdout }
      ∧ o.sandbox (mk_final_code code call) = { status := "Success", stdout := stdout }
      ∧ pyIn qa.answer stdout = true := by
  intro rem
  induction rem with
  | zero => intro c r c' h; simp [env_validation_loop] at h
  | succ n ih =>
    intro c r c' h
    simp only [env_validation_loop] at h
    cases hcall : o.call_gen c.call_gen_calls with
    | none =>
      rw [hcall] at h
      dsimp only at h
      exact ih _ _ _ h
    | some call =>
      rw [hcall] at h
      dsimp only at h
      cases hdep : o.deploy c.deploy_calls with
      | none =>
        rw [hdep] at h
        dsimp only at h
        exact ih _ _ _ h
      | some code =>
        rw [hdep] at h
        dsimp only at h
        by_cases hacc :
            ((o.sandbox (mk_final_code code call)).status == "Success"
              && pyIn qa.answer (o.sandbox (mk_final_code code call)).stdout) = true
        · rw [if_pos hacc] at h
          rw [Bool.and_eq_true] at hacc
          obtain ⟨hst, hin⟩ := hacc
          obtain ⟨hr, hc⟩ := Prod.mk.injEq _ _ _ _ ▸ h
          refine ⟨(o.sandbox (mk_final_code code call)).stdout, code, call, ?_, ?_, hin⟩
          · exact (Option.some_inj.mp hr).symm
          · have hs : (o.sandbox (mk_final_code code call)).status = "Success" :=
              eq_of_beq hst
            cases hsb : o.sandbox (mk_final_code code call) with
            | mk st out =>
              rw [hsb] at hs
              simp only at hs
              simp [hs]
        · rw [if_neg hacc] at h
          exact ih _ _ _ h

theorem single_env_synthesis_sound (qa : QAPair) (o : SynthOracle)
    (c : SynthCounters) (r : EnvData) (c' : SynthCounters)
    (h : single_env_synthesis qa o c = (some r, c')) :
    ∃ doc stdout code call,
      r = { tool_document := some doc, tool_call_statement := some call
            code := some code, tool_call_ans := some stdout }
      ∧ o.sandbox (mk_final_code code call) = { status := "Success", stdout := stdout }
      ∧ pyIn qa.answer stdout = true := by
  simp only [single_env_synthesis] at h
  cases hdg : o.doc_gen c.doc_gen_calls with
  | none => rw [hdg] at h; simp at h
  | some doc0 =>
    rw [hdg] at h
    cases hds : o.doc_scale c.doc_scale_calls with
    | none => rw [hds] at h; simp at h
    | some doc =>
      rw [hds] at h
      exact ⟨doc, env_validation_loop_sound qa o doc _ _ _ _ h⟩

theorem single_env_synthesis_call_gen_le (qa : QAPair) (o : SynthOracle)
    (c : SynthCounters) :
    (single_env_synthesis qa o c).2.call_gen_calls
      ≤ c.call_gen_calls + ENV_SYNTHESIS_INNER_MAX_RETRY_TIMES := by
  simp only [single_env_synthesis]
  cases hdg : o.doc_gen c.doc_gen_calls with
  | none => simp [ENV_SYNTHESIS_INNER_MAX_RETRY_TIMES]
  | some doc0 =>
    cases hds : o.doc_scale c.doc_scale_calls with
    | none => simp [ENV_SYNTHESIS_INNER_MAX_RETRY_TIMES]
    | some doc =>
      have h := env_validation_loop_call_gen_le qa o doc
        ENV_SYNTHESIS_INNER_MAX_RETRY_TIMES
        { c with doc_gen_calls := c.doc_gen_calls + 1,
                 doc_scale_calls := c.doc_scale_calls + 1 }
      simpa using h

theorem single_env_synthesis_doc_gen_eq (qa : QAPair) (o : SynthOracle)
    (c : SynthCounters) :
    (single_env_synthesis qa o c).2.doc_gen_calls = c.doc_gen_calls + 1 := by
  simp only [single_env_synthesis]
  cases hdg : o.doc_gen c.doc_gen_calls with
  | none => simp
  | some doc0 =>
    cases hds : o.doc_scale c.doc_scale_calls with
    | none => simp
    | some doc =>
      have h := env_validation_loop_doc_gen_eq qa o doc
        ENV_SYNTHESIS_INNER_MAX_RETRY_TIMES
        { c with doc_gen_calls := c.doc_gen_calls + 1,
                 doc_scale_calls := c.doc_scale_calls + 1 }
      simpa using h

theorem synthesis_outer_loop_doc_gen_le (qa : QAPair) (o : SynthOracle) :
    ∀ rem c, (synthesis_outer_loop qa o rem c).2.doc_gen_calls
      ≤ c.doc_gen_calls + rem := by
  intro rem
  induction rem with
  | zero => intro c; simp [synthesis_outer_loop]
  | succ n ih =>
    intro c
    simp only [synthesis_outer_loop]
    cases hs : single_env_synthesis qa o c with
    | mk res c1 =>
      have hdoc : c1.doc_gen_calls = c.doc_gen_calls + 1 := by
        have := single_env_synthesis_doc_gen_eq qa o c
        rw [hs] at this
        exact this
      cases res with
      | some r => simp only; omega
      | none =>
        simp only
        have := ih c1
        omega

theorem synthesis_outer_loop_sound (qa : QAPair) (o : SynthOracle) :
    ∀ rem c r c', synthesis_outer_loop qa o rem c = (some r, c') →
    ∃ doc stdout code call,
      r = { tool_document := some doc, tool_call_statement := some call
            code := some code, tool_call_ans := some stdout }
      ∧ o.sandbox (mk_final_code code call) = { status := "Success", stdout := stdout }
      ∧ pyIn qa.answer stdout = true := by
  intro rem
  induction rem with
  | zero => intro c r c' h; simp [synthesis_outer_loop] at h
  | succ n ih =>
    intro c r c' h
    simp only [synthesis_outer_loop] at h
    cases hs : single_env_synthesis qa o c with
    | mk res c1 =>
      rw [hs] at h
      cases res with
      | some r0 =>
        simp only at h
        obtain ⟨hr, _⟩ := Prod.mk.injEq _ _ _ _ ▸ h
        obtain ⟨doc, stdout, code, call, hr0, hsb, hin⟩ :=
          single_env_synthesis_sound qa o c r0 c1 hs
        exact ⟨doc, stdout, code, call, by rw [← Option.some_inj.mp hr, hr0], hsb, hin⟩
      | none =>
        simp only at h
        exact ih c1 r c' h

/--
C3 amended.  The validation loop that holds the scaled document fixed and
repeats from stage 3 runs up to `ENV_SYNTHESIS_INNER_MAX_RETRY_TIMES = 5`
iterations per synthesis pass (first conjunct); each pass generates the
document exactly once (second conjunct); `synthesis_single_env` repeats
whole passes — document generation included — up to
`ENV_SYNTHESIS_OUTER_MAX_RETRY_TIMES = 15` times (third conjunct); and a
pass is accepted if and only if the sandbox run of
`code + "\nprint(" + call + ")"` returned status `"Success"` with the
expected answer contained in stdout (fourth conjunct).
-/
theorem synthesis_retry_structure (qa : QAPair) (o : SynthOracle)
    (c : SynthCounters) :
    (single_env_synthesis qa o c).2.call_gen_calls
      ≤ c.call_gen_calls + ENV_SYNTHESIS_INNER_MAX_RETRY_TIMES
    ∧ (single_env_synthesis qa o c).2.doc_gen_calls = c.doc_gen_calls + 1
    ∧ (synthesis_single_env qa o).2.doc_gen_calls
        ≤ ENV_SYNTHESIS_OUTER_MAX_RETRY_TIMES
    ∧ (∀ r c', synthesis_single_env qa o = (some r, c') →
        ∃ doc stdout code call,
          r = { tool_document := some doc, tool_call_statement := some call
                code := some code, tool_call_ans := some stdout }
          ∧ o.sandbox (mk_final_code code call)
              = { status := "Success", stdout := stdout }
          ∧ pyIn qa.answer stdout = true) := by
  refine ⟨single_env_synthesis_call_gen_le qa o c,
    single_env_synthesis_doc_gen_eq qa o c, ?_, ?_⟩
  · simpa [SynthCounters.init] using
      synthesis_outer_loop_doc_gen_le qa o ENV_SYNTHESIS_OUTER_MAX_RETRY_TIMES .init
  · intro r c' h
    exact synthesis_outer_loop_sound qa o _ _ r c' h

/--
Witness for C3: with an oracle whose sandbox prints the expected answer,
the accepted pass satisfies the acceptance condition of
`synthesis_retry_structure`.
-/
theorem synthesis_retry_structure_witness :
    ∃ doc stdout code call,
      ({ tool_document := some "scaled doc", tool_call_statement := some "mul(12, 7)"
         code := some "def mul(a, b): return a * b"
         tool_call_ans := some "84\n" } : EnvData)
        = { tool_document := some doc, tool_call_statement := some call
            code := some code, tool_call_ans := some stdout }
      ∧ synth_ok_oracle.sandbox (mk_final_code code call)
          = { status := "Success", stdout := stdout }
      ∧ pyIn synth_qa.answer stdout = true :=
  (synthesis_retry_structure synth_qa synth_ok_oracle .init).2.2.2
    { tool_document := some "scaled doc", tool_call_statement := some "mul(12, 7)"
      code := some "def mul(a, b): return a * b", tool_call_ans := some "84\n" }
    { doc_gen_calls := 1, doc_scale_calls := 1, call_gen_calls := 1, deploy_calls := 1 }
    rfl

/--
C1.  First conjunct: `_single_env_synthesis` returns a non-null result
only when a sandbox run of `code + "\nprint(" + call + ")"` returned status
`"Success"` with the expected answer contained in stdout, and it stores
that stdout as `tool_call_ans` — so `answer` is a substring of
`tool_call_ans` for every non-null entry the synthesizer writes (entries
that only acquire `merge_flag` later, in post-processing).  Second
conjunct: `_check_env` returns `False` for any record with a non-null,
unmerged entry violating the substring condition — equivalently, when it
returns `True`, every checked entry satisfies it.
-/
theorem env_answer_substring_invariant :
    (∀ (qa : QAPair) (o : SynthOracle) (c : SynthCounters) r c',
      single_env_synthesis qa o c = (some r, c') →
      ∃ stdout, r.tool_call_ans = some stdout ∧ pyIn qa.answer stdout = true)
    ∧ (∀ env_result, check_env env_result = true →
        ∀ k e, (k, some e) ∈ env_result → k ≠ "wrong_info" →
        ∀ d, e.env_synthesis_result = some d →
        ∀ ans, d.tool_call_ans = some ans → pyIn e.answer ans = true) := by
  constructor
  · intro qa o c r c' h
    obtain ⟨doc, stdout, code, call, hr, _, hin⟩ :=
      single_env_synthesis_sound qa o c r c' h
    exact ⟨stdout, by rw [hr], hin⟩
  · intro env_result hall k e hmem hk d hd ans hans
    have h1 : check_env_entry k (some e) = true :=
      List.all_eq_true.mp hall (k, some e) hmem
    have hbk : (k != "wrong_info") = true := by
      simpa [bne_iff_ne] using hk
    simp only [check_env_entry, hbk, if_true, hd] at h1
    cases hstmt : d.tool_call_statement with
    | none => rw [hstmt] at h1; cases hcode : d.code <;> simp_all
    | some stmt =>
      rw [hstmt] at h1
      cases hcode : d.code with
      | none => rw [hcode] at h1; simp_all
      | some code =>
        rw [hcode] at h1
        cases hdoc : d.tool_document with
        | none => rw [hdoc] at h1; simp_all
        | some docp =>
          rw [hdoc, hans] at h1
          simp only [Bool.and_eq_true] at h1
          exact h1.2

/--
Witness for C1: the checked concrete env entry (answer `84`, recorded
stdout `84\n`) satisfies the substring invariant, and a concrete
successful synthesis run stores a `tool_call_ans` containing its answer.
-/
theorem env_answer_substring_invariant_witness :
    (∃ stdout,
      ({ tool_document := some "scaled doc", tool_call_statement := some "mul(12, 7)"
         code := some "def mul(a, b): return a * b"
         tool_call_ans := some "84\n" } : EnvData).tool_call_ans = some stdout
      ∧ pyIn synth_qa.answer stdout = true)
    ∧ pyIn demo_env_entry.answer "84\n" = true := by
  constructor
  · exact env_answer_substring_invariant.1 synth_qa synth_ok_oracle .init
      { tool_document := some "scaled doc", tool_call_statement := some "mul(12, 7)"
        code := some "def mul(a, b): return a * b", tool_call_ans := some "84\n" }
      { doc_gen_calls := 1, doc_scale_calls := 1, call_gen_calls := 1, deploy_calls := 1 }
      rfl
  · exact env_answer_substring_invariant.2
      [("3", some demo_env_entry)] (by decide) "3" demo_env_entry
      (by simp) (by decide)
      { tool_document := some ⟨true, true, true⟩
        tool_call_statement := some "mul(12, 7)"
        code := some "def mul(a, b): return a * b"
        tool_call_ans := some "84\n" }
      rfl "84\n" rfl

/--
C7.  For a trajectory (of at least two messages, as `trajectory[1]` is
read) whose tool messages all carry a truthy `tool_call_id` — the data
model guarantees a matching `tool_call_id` on every tool message — the
tool-call judge returns exactly
`(1.0 · #judged-true + 0.5 · #judged-false) / #tool-messages` with no
safe-score flag; with zero tool messages it returns exactly
`SAFE_TOOL_CALL_SCORE = 1.0` with `is_safe_score = 1`.
-/
theorem tool_call_score_formula (traj : List RewardMsg) (judge : Nat → Bool)
    (hlen : 2 ≤ traj.length)
    (hid : ∀ m ∈ traj, m.role = "tool" → m.tool_call_id ≠ "") :
    (0 < (traj.filter fun m => m.role == "tool").length →
      get_tool_call_score traj judge = .ok
        { score :=
            (1 * ((((List.range (traj.filter fun m => m.role == "tool").length).filter
                fun i => judge i).length : ℚ))
              + (1/2) * ((((traj.filter fun m => m.role == "tool").length
                  - ((List.range (traj.filter fun m => m.role == "tool").length).filter
                      fun i => judge i).length : Nat) : ℚ)))
            / (((traj.filter fun m => m.role == "tool").length : ℚ))
          is_safe_score := false
          success_times :=
            ((List.range (traj.filter fun m => m.role == "tool").length).filter
              fun i => judge i).length
          fail_times :=
            (traj.filter fun m => m.role == "tool").length
              - ((List.range (traj.filter fun m => m.role == "tool").length).filter
                  fun i => judge i).length })
    ∧ ((traj.filter fun m => m.role == "tool").length = 0 →
      get_tool_call_score traj judge = .ok
        { score := SAFE_TOOL_CALL_SCORE, is_safe_score := true
          success_times := 0, fail_times := 0 }) := by
  have hcount : counted_tool_msgs traj = traj.filter fun m => m.role == "tool" := by
    unfold counted_tool_msgs
    apply List.filter_congr
    intro m hm
    by_cases hrole : m.role = "tool"
    · have : m.tool_call_id ≠ "" := hid m hm hrole
      simp [hrole, this, bne_iff_ne]
    · simp [hrole]
  have hnotlt : ¬(traj.length < 2) := by omega
  set n := (traj.filter fun m => m.role == "tool").length with hn
  have hsucc :
      ((((List.range n).map judge).filter fun b => b == true)).length
        = ((List.range n).filter fun i => judge i).length := by
    rw [List.filter_map, List.length_map]
    congr 1
    apply List.filter_congr
    intro i _
    simp only [Function.comp_apply]
    cases judge i <;> rfl
  have hfail :
      ((((List.range n).map judge).filter fun b => b == false)).length
        = n - ((List.range n).filter fun i => judge i).length := by
    rw [List.filter_map, List.length_map]
    have hneg :
        (List.range n).filter ((fun b => b == false) ∘ judge)
          = (List.range n).filter fun i => !(judge i) := by
      apply List.filter_congr
      intro i _
      simp only [Function.comp_apply]
      cases judge i <;> rfl
    rw [hneg]
    have hsplit := List.length_eq_length_filter_add
      (l := List.range n) (fun i => judge i)
    rw [List.length_range] at hsplit
    omega
  constructor
  · intro hpos
    simp only [get_tool_call_score, if_neg hnotlt, hcount, ← hn, hsucc, hfail,
      if_pos hpos]
  · intro hzero
    simp only [get_tool_call_score, if_neg hnotlt, hcount, ← hn, hzero]
    simp

/--
Witness for C7: the four-message demo trajectory with its single tool
message judged a failure scores exactly `(1.0 · 0 + 0.5 · 1) / 1 = 0.5`,
and with its tool message removed the judge returns the safe default.
-/
theorem tool_call_score_formula_witness :
    get_tool_call_score demo_reward_traj (fun _ => false)
      = .ok { score := (1 * ((0 : Nat) : ℚ) + (1/2) * ((1 : Nat) : ℚ)) / ((1 : Nat) : ℚ)
              is_safe_score := false, success_times := 0, fail_times := 1 }
    ∧ get_tool_call_score (demo_reward_traj.take 2) (fun _ => false)
      = .ok { score := SAFE_TOOL_CALL_SCORE, is_safe_score := true
              success_times := 0, fail_times := 0 } := by
  constructor
  · have h := (tool_call_score_formula demo_reward_traj (fun _ => false)
      (by decide) (by decide)).1 (by decide)
    rw [h]
    rfl
  · have h := (tool_call_score_formula (demo_reward_traj.take 2) (fun _ => false)
      (by decide) (by decide)).2 (by decide)
    rw [h]

/--
C8.  When the detected dominant languages of the query
(`trajectory[1].content`) and the final answer (`trajectory[-1].content`)
are both known and differ, the final-answer correlation judge returns
score `0.0` without making any LLM call.
-/
theorem language_mismatch_scores_zero (m0 m1 : RewardMsg)
    (rest : List RewardMsg) (judge : Option ℚ)
    (hq : detect_language m1.content ≠ "unknown")
    (ha : detect_language (List.getLastD (m0 :: m1 :: rest) m1).content ≠ "unknown")
    (hne : detect_language m1.content
      ≠ detect_language (List.getLastD (m0 :: m1 :: rest) m1).content) :
    evaluate_final_answer_correlation (m0 :: m1 :: rest) judge
      = .ok { score := 0, is_safe_score := false, llm_calls := 0 } := by
  have hck : check_language_consistency m1.content
      (List.getLastD (m0 :: m1 :: rest) m1).content = 0 := by
    unfold check_language_consistency
    rw [if_neg, if_neg]
    · simpa [beq_iff_eq] using hne
    · simp only [Bool.or_eq_true, beq_iff_eq]
      tauto
  simp only [evaluate_final_answer_correlation, hck]
  rfl

/--
Witness for C8: an English query with a Chinese final answer yields
correlation `0.0` and zero LLM calls, even though a parsed judge response
is available.
-/
theorem language_mismatch_scores_zero_witness :
    evaluate_final_answer_correlation demo_lang_traj (some 1)
      = .ok { score := 0, is_safe_score := false, llm_calls := 0 } := by
  have h := language_mismatch_scores_zero
    { role := "system", content := "sys", tool_calls := none, tool_call_id := "" }
    { role := "user", content := "What is the population of Tokyo"
      tool_calls := none, tool_call_id := "" }
    [{ role := "assistant", content := "人口一千四百万"
       tool_calls := none, tool_call_id := "" }]
    (some 1) (by decide) (by decide) (by decide)
  simpa [demo_lang_traj] using h

/--
C2 counterexample.  The claim quantifies over every input file: two input
records sharing one extracted user query, with one of them already in the
output prefix, make the resumed run skip both — the final output has 1
line for 2 input records, so a record is silently dropped.
-/
theorem resume_drops_duplicate_query_record :
    (resume_run dup_output_prefix [dup_record_a, dup_record_b]).length = 1
    ∧ ([dup_record_a, dup_record_b] : List TaskRecord).length = 2 :=
  ⟨rfl, rfl⟩

/--
C2 amended.  Provided the extracted queries of the input records are
pairwise distinct (and the interrupted output prefix holds a duplicate-free
subset of those queries), re-running the stage appends exactly the records
whose query is not yet represented: the final output file carries exactly
one line per input record — none dropped, none duplicated, order possibly
different (the query multisets are permutations).
-/
theorem load_data_map_key (pre inputs : List TaskRecord) :
    (load_data pre inputs).map (fun r => extract_query r.query_info)
      = ((inputs.map fun r => extract_query r.query_info).filter
          fun s => !((pre.map fun r => extract_query r.query_info).contains s)) := by
  simp only [load_data]
  induction inputs with
  | nil => rfl
  | cons a rest ih =>
    simp only [List.map_cons, List.filter_cons]
    cases hp : !((pre.map fun r => extract_query r.query_info).contains
        (extract_query a.query_info)) with
    | false =>
      rw [if_neg (by simp)]
      exact ih
    | true =>
      rw [if_pos rfl, List.map_cons, ih, if_pos rfl]

set_option maxHeartbeats 1000000 in
theorem resume_exactly_once_per_record (pre inputs : List TaskRecord)
    (hI : (inputs.map fun r => extract_query r.query_info).Nodup)
    (hP : (pre.map fun r => extract_query r.query_info).Nodup)
    (hsub : ∀ q ∈ pre.map fun r => extract_query r.query_info,
      q ∈ inputs.map fun r => extract_query r.query_info) :
    ((resume_run pre inputs).map fun r => extract_query r.query_info).Perm
      (inputs.map fun r => extract_query r.query_info) := by
  have hld := load_data_map_key pre inputs
  rw [List.perm_iff_count]
  intro q
  rw [resume_run, List.map_append, List.count_append, hld]
  by_cases hq : q ∈ pre.map fun r => extract_query r.query_info
  · have hP1 : (pre.map fun r => extract_query r.query_info).count q = 1 :=
      List.count_eq_one_of_mem hP hq
    have hpred : (!((pre.map fun r => extract_query r.query_info).contains q))
        = false := by
      simp only [Bool.not_eq_false']
      exact List.elem_eq_true_of_mem hq
    have hmemI : q ∈ inputs.map fun r => extract_query r.query_info := hsub q hq
    have hI1 : (inputs.map fun r => extract_query r.query_info).count q = 1 :=
      List.count_eq_one_of_mem hI hmemI
    have h0 : ((inputs.map fun r => extract_query r.query_info).filter
        fun s => !((pre.map fun r => extract_query r.query_info).contains s)).count q
          = 0 := by
      apply List.count_eq_zero_of_not_mem
      intro hmem
      have hpf := (List.mem_filter.mp hmem).2
      rw [hpred] at hpf
      exact Bool.false_ne_true hpf
    rw [hP1, hI1, h0]
  · have hP0 : (pre.map fun r => extract_query r.query_info).count q = 0 :=
      List.count_eq_zero_of_not_mem hq
    have hpred : (!((pre.map fun r => extract_query r.query_info).contains q))
        = true := by
      simp only [Bool.not_eq_true']
      cases hcon : (pre.map fun r => extract_query r.query_info).contains q with
      | false => rfl
      | true => exact absurd (List.elem_iff.mp hcon) hq
    have hcf := List.count_filter
      (p := fun s => !((pre.map fun r => extract_query r.query_info).contains s))
      (a := q) (l := inputs.map fun r => extract_query r.query_info) hpred
    rw [hP0, hcf, Nat.zero_add]

/--
Witness for C2: two records with distinct extracted queries, one already in
the output prefix; re-running yields a query multiset equal to the inputs'.
-/
theorem resume_exactly_once_per_record_witness :
    ((resume_run distinct_output_prefix
        [distinct_record_a, distinct_record_b]).map
      fun r => extract_query r.query_info).Perm
      (([distinct_record_a, distinct_record_b]).map
        fun r => extract_query r.query_info) :=
  resume_exactly_once_per_record distinct_output_prefix
    [distinct_record_a, distinct_record_b] (by decide) (by decide) (by decide)

/-- Helper for C10: on messages whose roles all lie in
`{system, user, assistant, function}` every loop iteration advances `i`,
so `length - i + 1` iterations of fuel always suffice. -/
theorem convert_messages_loop_total (messages : List AgentMsg)
    (hroles : ∀ m ∈ messages, m.role = "system" ∨ m.role = "user"
      ∨ m.role = "assistant" ∨ m.role = "function") :
    ∀ fuel i acc, messages.length - i < fuel →
      (convert_messages_loop messages fuel i acc).isSome := by
  intro fuel
  induction fuel with
  | zero => intro i acc h; omega
  | succ n ih =>
    intro i acc h
    rw [convert_messages_loop]
    by_cases hi : i < messages.length
    · rw [dif_pos hi]
      have hm : messages.get ⟨i, hi⟩ ∈ messages := messages.get_mem i hi
      rcases hroles _ hm with hr | hr | hr | hr
      · simp only [hr]
        exact ih (i + 1) _ (by omega)
      · simp only [hr]
        exact ih (i + 1) _ (by omega)
      · simp only [hr]
        have hfr : (("assistant" == "system") || ("assistant" == "user")) = false := by
          decide
        rw [hfr]
        simp only [Bool.false_eq_true, if_false, if_pos (by decide : ("assistant" == "assistant") = true)]
        by_cases hrun :
            (mk_tool_calls (fc_run (messages.drop (i + 1)))).isEmpty = true
        · simp only [hrun, Bool.not_true, Bool.false_eq_true, if_false]
          exact ih (i + 1) _ (by omega)
        · simp only [eq_false_of_ne_true hrun, Bool.not_false, if_true]
          exact ih (i + (fc_run (messages.drop (i + 1))).length + 1) _ (by omega)
      · simp only [hr]
        have hfr : (("function" == "system") || ("function" == "user")) = false := by
          decide
        have hfa : ("function" == "assistant") = false := by decide
        rw [hfr, hfa]
        simp only [Bool.false_eq_true, if_false,
          if_pos (by decide : ("function" == "function") = true)]
        exact ih (i + 1) _ (by omega)
    · rw [dif_neg hi]
      rfl

/--
C10.  First conjunct: `convert_messages_to_dicts` terminates on every
message list whose roles all lie in `{system, user, assistant, function}`
(fuel `length + 1` suffices).  Second conjunct: on an input containing a
message with any other role (here role `tool`), the loop never advances
its index: no amount of fuel makes it terminate.  Third conjunct: a run of
trailing assistant messages carrying `function_call`s is merged into the
preceding assistant message's `tool_calls` with synthesized ids
`call_{idx}_{name}`.
-/
theorem convert_messages_termination_behaviour :
    (∀ messages : List AgentMsg,
      (∀ m ∈ messages, m.role = "system" ∨ m.role = "user"
        ∨ m.role = "assistant" ∨ m.role = "function") →
      (convert_messages_to_dicts messages (messages.length + 1)).isSome)
    ∧ (∀ fuel, convert_messages_to_dicts [stray_tool_msg] fuel = none)
    ∧ convert_messages_to_dicts fc_messages 5 = some
        [ { role := "user", content := "hi", function_call := none
            name := none, tool_call_id := none, tool_calls := [] }
        , { role := "assistant", content := "calling", function_call := none
            name := none, tool_call_id := none
            tool_calls :=
              [ { id := "call_0_mul", typ := "function"
                  function := ⟨"mul", "\x7b\"a\": 12\x7d"⟩ }
              , { id := "call_1_add", typ := "function"
                  function := ⟨"add", "\x7b\"a\": 3\x7d"⟩ } ] } ] := by
  refine ⟨?_, ?_, rfl⟩
  · intro messages hroles
    exact convert_messages_loop_total messages hroles (messages.length + 1) 0 []
      (by omega)
  · intro fuel
    induction fuel with
    | zero => rfl
    | succ n ih =>
      have hstep : convert_messages_loop [stray_tool_msg] (n + 1) 0 []
          = convert_messages_loop [stray_tool_msg] n 0 [] := rfl
      show convert_messages_loop [stray_tool_msg] (n + 1) 0 [] = none
      rw [hstep]
      exact ih

/-- Witness for C10: the termination conjunct applied to the concrete
message list `fc_messages`, whose roles are all in the allowed set. -/
theorem convert_messages_termination_witness :
    (convert_messages_to_dicts fc_messages (fc_messages.length + 1)).isSome :=
  convert_messages_termination_behaviour.1 fc_messages (by decide)

/-! ### Helper lemmas about the graph/chain builder -/

theorem walks_from_mem (g : ToolGraph) : ∀ (rem : Nat) (n : String)
    (c : List String),
    c ∈ walks_from g n rem ↔
      ∃ t, c = n :: t ∧ t.length = rem ∧ steps_ok g (n :: t) = true := by
  intro rem
  induction rem with
  | zero =>
    intro n c
    simp only [walks_from, List.mem_singleton]
    constructor
    · rintro rfl
      exact ⟨[], rfl, rfl, rfl⟩
    · rintro ⟨t, rfl, ht, _⟩
      rw [List.length_eq_zero.mp ht]
  | succ rem ih =>
    intro n c
    simp only [walks_from, List.mem_flatMap, List.mem_map]
    constructor
    · rintro ⟨nx, hnx, c', hc', rfl⟩
      obtain ⟨t', rfl, hlen, hsteps⟩ := (ih nx c').mp hc'
      refine ⟨nx :: t', rfl, by simp [hlen], ?_⟩
      have hcont : (node_nexts g n).contains nx = true :=
        List.elem_eq_true_of_mem hnx
      show ((node_nexts g n).contains nx && steps_ok g (nx :: t')) = true
      rw [hcont, hsteps]
      rfl
    · rintro ⟨t, rfl, hlen, hsteps⟩
      cases t with
      | nil => simp at hlen
      | cons nx t' =>
        have hcc : ((node_nexts g n).contains nx && steps_ok g (nx :: t')) = true :=
          hsteps
        rw [Bool.and_eq_true] at hcc
        refine ⟨nx, List.elem_iff.mp hcc.1, nx :: t', ?_, rfl⟩
        exact (ih nx (nx :: t')).mpr ⟨t', rfl, by simpa using hlen, hcc.2⟩

theorem is_node_iff_mem (g : ToolGraph) (n : String) :
    is_node g n = true ↔ n ∈ graph_nodes g := by
  unfold is_node graph_nodes
  rw [List.find?_isSome]
  constructor
  · rintro ⟨e, he, hbeq⟩
    exact List.mem_map.mpr ⟨e, he, eq_of_beq hbeq⟩
  · rintro hmem
    obtain ⟨e, he, rfl⟩ := List.mem_map.mp hmem
    exact ⟨e, he, by simp⟩

theorem get_chains_from_graph_mem (g : ToolGraph) (len : Nat) (hlen : 1 ≤ len)
    (c : List String) :
    c ∈ get_chains_from_graph g len ↔ (is_walk g c = true ∧ c.length = len) := by
  obtain ⟨l, rfl⟩ : ∃ l, len = l + 1 := ⟨len - 1, by omega⟩
  simp only [get_chains_from_graph, List.mem_flatMap, get_chain]
  constructor
  · rintro ⟨n, hn, hc⟩
    obtain ⟨t, rfl, hlen', hsteps⟩ := (walks_from_mem g l n c).mp hc
    have hnode : is_node g n = true := (is_node_iff_mem g n).mpr hn
    constructor
    · show (is_node g n && steps_ok g (n :: t)) = true
      rw [hnode, hsteps]
      rfl
    · simp [hlen']
  · rintro ⟨hwalk, hclen⟩
    cases c with
    | nil => simp [is_walk] at hwalk
    | cons x t =>
      have hxt : (is_node g x && steps_ok g (x :: t)) = true := hwalk
      rw [Bool.and_eq_true] at hxt
      refine ⟨x, (is_node_iff_mem g x).mp hxt.1, ?_⟩
      exact (walks_from_mem g l x (x :: t)).mpr
        ⟨t, rfl, by simpa using hclen, hxt.2⟩

theorem sub_chains_mem_iff (g : ToolGraph) (L U : Nat) (hL : 1 ≤ L)
    (c : List String) :
    c ∈ sub_chains g L U ↔
      (is_walk g c = true ∧ L ≤ c.length ∧ c.length ≤ U) := by
  simp only [sub_chains, List.mem_flatMap]
  constructor
  · rintro ⟨len, hlen, hc⟩
    have hr := List.mem_range'_1.mp hlen
    have h1 : 1 ≤ len := by omega
    obtain ⟨hwalk, hcl⟩ := (get_chains_from_graph_mem g len h1 c).mp hc
    exact ⟨hwalk, by omega⟩
  · rintro ⟨hwalk, hge, hle⟩
    refine ⟨c.length, List.mem_range'_1.mpr ⟨hge, by omega⟩, ?_⟩
    exact (get_chains_from_graph_mem g c.length (by omega) c).mpr ⟨hwalk, rfl⟩

theorem insert_node_wf (g : ToolGraph) (name : String)
    (h1 : (graph_nodes g).Nodup) (h2 : ∀ e ∈ g, e.2.Nodup) :
    (graph_nodes (insert_node g name)).Nodup
      ∧ ∀ e ∈ insert_node g name, e.2.Nodup := by
  unfold insert_node
  by_cases hn : is_node g name = true
  · rw [if_pos hn]
    exact ⟨h1, h2⟩
  · rw [if_neg hn]
    constructor
    · simp only [graph_nodes, List.map_append, List.map_cons, List.map_nil]
      apply List.Nodup.append h1 (by simp)
      intro a ha hb
      simp only [List.mem_singleton] at hb
      subst hb
      exact hn ((is_node_iff_mem g a).mpr ha)
    · intro e he
      rcases List.mem_append.mp he with h | h
      · exact h2 e h
      · simp only [List.mem_singleton] at h
        subst h
        simp


theorem foldl_insert_node_wf : ∀ (tools : List String) (g : ToolGraph),
    (graph_nodes g).Nodup → (∀ e ∈ g, e.2.Nodup) →
    (graph_nodes (tools.foldl insert_node g)).Nodup
      ∧ ∀ e ∈ tools.foldl insert_node g, e.2.Nodup := by
  intro tools
  induction tools with
  | nil => intro g h1 h2; exact ⟨h1, h2⟩
  | cons t rest ih =>
    intro g h1 h2
    have h := insert_node_wf g t h1 h2
    exact ih (insert_node g t) h.1 h.2

theorem graph_nodes_add_edge (g : ToolGraph) (a b : String) :
    graph_nodes (add_edge g a b) = graph_nodes g := by
  simp only [add_edge, graph_nodes, List.map_map]
  apply List.map_congr_left
  intro e _
  by_cases h : (e.1 == a) = true
  · simp only [Function.comp_apply, if_pos h]
  · simp only [Function.comp_apply, if_neg h]

theorem add_edge_nexts_nodup (g : ToolGraph) (a b : String)
    (h2 : ∀ e ∈ g, e.2.Nodup) : ∀ e ∈ add_edge g a b, e.2.Nodup := by
  intro e he
  simp only [add_edge, List.mem_map] at he
  obtain ⟨e0, he0, rfl⟩ := he
  by_cases h : (e0.1 == a) = true
  · rw [if_pos h]
    by_cases hc : e0.2.contains b = true
    · rw [if_pos hc]
      exact h2 e0 he0
    · rw [if_neg hc]
      apply List.Nodup.append (h2 e0 he0) (by simp)
      intro x hx hxb
      simp only [List.mem_singleton] at hxb
      subst hxb
      exact hc (List.elem_eq_true_of_mem hx)
  · rw [if_neg h]
    exact h2 e0 he0

theorem add_chain_wf : ∀ (chain : List String) (g : ToolGraph)
    (last : Option String),
    (graph_nodes g).Nodup → (∀ e ∈ g, e.2.Nodup) →
    (graph_nodes (add_chain g last chain)).Nodup
      ∧ ∀ e ∈ add_chain g last chain, e.2.Nodup := by
  intro chain
  induction chain with
  | nil => intro g last h1 h2; exact ⟨h1, h2⟩
  | cons t rest ih =>
    intro g last h1 h2
    simp only [add_chain]
    by_cases hn : is_node g t = true
    · rw [if_pos hn]
      cases last with
      | some l =>
        apply ih
        · rw [graph_nodes_add_edge]
          exact h1
        · exact add_edge_nexts_nodup g l t h2
      | none => exact ih g (some t) h1 h2
    · rw [if_neg hn]
      exact ih g last h1 h2

theorem foldl_add_chain_wf : ∀ (chains : List (List String)) (g : ToolGraph),
    (graph_nodes g).Nodup → (∀ e ∈ g, e.2.Nodup) →
    (graph_nodes (chains.foldl (fun g ch => add_chain g none ch) g)).Nodup
      ∧ ∀ e ∈ chains.foldl (fun g ch => add_chain g none ch) g, e.2.Nodup := by
  intro chains
  induction chains with
  | nil => intro g h1 h2; exact ⟨h1, h2⟩
  | cons ch rest ih =>
    intro g h1 h2
    simp only [List.foldl_cons]
    have h := add_chain_wf ch g none h1 h2
    exact ih _ h.1 h.2

theorem build_graph_wf (tools : List String) (chains : List (List String)) :
    (graph_nodes (build_graph tools chains)).Nodup
      ∧ ∀ e ∈ build_graph tools chains, e.2.Nodup := by
  unfold build_graph
  have h0 := foldl_insert_node_wf tools [] (by simp [graph_nodes]) (by simp)
  exact foldl_add_chain_wf chains _ h0.1 h0.2

theorem node_nexts_nodup (g : ToolGraph) (h2 : ∀ e ∈ g, e.2.Nodup)
    (n : String) : (node_nexts g n).Nodup := by
  unfold node_nexts
  cases hf : g.find? fun e => e.1 == n with
  | none => simp
  | some e => exact h2 e (List.mem_of_find?_eq_some hf)

theorem walks_from_head (g : ToolGraph) (rem : Nat) (n : String)
    (c : List String) (hc : c ∈ walks_from g n rem) : ∃ t, c = n :: t := by
  obtain ⟨t, rfl, _, _⟩ := (walks_from_mem g rem n c).mp hc
  exact ⟨t, rfl⟩

theorem walks_from_nodup (g : ToolGraph) (h2 : ∀ e ∈ g, e.2.Nodup) :
    ∀ (rem : Nat) (n : String), (walks_from g n rem).Nodup := by
  intro rem
  induction rem with
  | zero => intro n; simp [walks_from]
  | succ rem ih =>
    intro n
    rw [walks_from]
    apply List.nodup_flatMap.mpr
    constructor
    · intro nx _
      exact (ih nx).map fun c1 c2 h => ((List.cons.injEq _ _ _ _).mp h).2
    · apply List.Pairwise.imp ?_ (node_nexts_nodup g h2 n)
      intro a b hne c hca hcb
      obtain ⟨c1, hc1, rfl⟩ := List.mem_map.mp hca
      obtain ⟨c2, hc2, hc⟩ := List.mem_map.mp hcb
      obtain ⟨t1, rfl⟩ := walks_from_head g rem a c1 hc1
      obtain ⟨t2, rfl⟩ := walks_from_head g rem b c2 hc2
      have := ((List.cons.injEq _ _ _ _).mp hc).2
      have hab : a = b := ((List.cons.injEq _ _ _ _).mp this).1.symm
      exact hne hab

theorem get_chains_length (g : ToolGraph) (len : Nat) (c : List String)
    (hc : c ∈ get_chains_from_graph g len) : c.length = len := by
  simp only [get_chains_from_graph, List.mem_flatMap] at hc
  obtain ⟨n, _, hc⟩ := hc
  cases len with
  | zero => simp [get_chain] at hc
  | succ l =>
    obtain ⟨t, rfl, hlen, _⟩ := (walks_from_mem g l n c).mp hc
    simp [hlen]

theorem get_chains_nodup (g : ToolGraph) (h1 : (graph_nodes g).Nodup)
    (h2 : ∀ e ∈ g, e.2.Nodup) (len : Nat) :
    (get_chains_from_graph g len).Nodup := by
  unfold get_chains_from_graph
  apply List.nodup_flatMap.mpr
  constructor
  · intro n _
    cases len with
    | zero => simp [get_chain]
    | succ l =>
      show (walks_from g n l).Nodup
      exact walks_from_nodup g h2 l n
  · apply List.Pairwise.imp ?_ h1
    intro a b hne c hca hcb
    cases len with
    | zero => simp [get_chain] at hca
    | succ l =>
      obtain ⟨t1, rfl⟩ := walks_from_head g l a c hca
      have hb := walks_from_head g l b (a :: t1) hcb
      obtain ⟨t2, hab⟩ := hb
      exact hne ((List.cons.injEq _ _ _ _).mp hab).1

theorem sub_chains_nodup (g : ToolGraph) (h1 : (graph_nodes g).Nodup)
    (h2 : ∀ e ∈ g, e.2.Nodup) (L U : Nat) : (sub_chains g L U).Nodup := by
  unfold sub_chains
  apply List.nodup_flatMap.mpr
  constructor
  · intro len _
    exact get_chains_nodup g h1 h2 len
  · apply List.Pairwise.imp ?_ (List.nodup_range' (s := L) (n := U + 1 - L))
    intro a b hne c hca hcb
    have ha := get_chains_length g a c hca
    have hb := get_chains_length g b c hcb
    exact hne (ha ▸ hb)

theorem steps_ok_chain' (g : ToolGraph) :
    ∀ c : List String, steps_ok g c = true ↔
      List.Chain' (fun a b => b ∈ node_nexts g a) c
  | [] => by simp [steps_ok]
  | [x] => by simp [steps_ok]
  | x :: y :: rest => by
    have ihr := steps_ok_chain' g (y :: rest)
    show ((node_nexts g x).contains y && steps_ok g (y :: rest)) = true ↔ _
    rw [List.chain'_cons, Bool.and_eq_true]
    constructor
    · rintro ⟨hcy, hrest⟩
      exact ⟨List.elem_iff.mp hcy, ihr.mp hrest⟩
    · rintro ⟨hcy, hrest⟩
      exact ⟨List.elem_eq_true_of_mem hcy, ihr.mpr hrest⟩

theorem chain_nodup_of_rank (rank : String → Nat) (c : List String)
    (h : List.Chain' (fun a b => rank b < rank a) c) : c.Nodup := by
  haveI : IsTrans String (fun a b : String => rank b < rank a) :=
    ⟨fun a b c hab hbc => lt_trans hbc hab⟩
  have hp := List.chain'_iff_pairwise.mp h
  refine hp.imp ?_
  intro a b hr heq
  rw [heq] at hr
  exact lt_irrefl _ hr

/--
C4 counterexample.  The claim says the emitted sub-chains are exactly the
*simple* paths of the detected graph and that no emitted sub-chain visits
the same tool twice.  The DFS in `get_chain` keeps no visited set, so a
detected chain `A -> B -> A` yields the cyclic graph `A <-> B`, and the
enumeration for bounds `(3, 3)` emits `[A, B, A]` — a walk that visits
tool `A` twice.
-/
theorem sub_chains_emit_repeated_tool :
    (["A", "B", "A"] : List String)
        ∈ sub_chains (build_graph ["A", "B"] [["A", "B", "A"]]) 3 3
    ∧ ¬(["A", "B", "A"] : List String).Nodup := by
  constructor
  · decide
  · decide

/--
C4 amended.  For every detected graph `build_graph tool_list chains` and
bounds `1 ≤ min_length ≤ max_length`: the emitted sub-chains are exactly
the *walks* (edge-following chains, which may revisit nodes) whose node
count lies in `[min_length, max_length]`, with no duplicate chain in the
output; and when the detected graph is acyclic (witnessed by a rank
function that strictly decreases along every edge) the emitted set is
exactly the set of simple paths with node count in range — in particular
no emitted sub-chain visits the same tool twice.
-/
theorem sub_chains_are_bounded_walks (tools : List String)
    (chains : List (List String)) (L U : Nat) (hL : 1 ≤ L) :
    (∀ c, c ∈ sub_chains (build_graph tools chains) L U ↔
      (is_walk (build_graph tools chains) c = true
        ∧ L ≤ c.length ∧ c.length ≤ U))
    ∧ (sub_chains (build_graph tools chains) L U).Nodup
    ∧ (∀ rank : String → Nat,
        (∀ a b, b ∈ node_nexts (build_graph tools chains) a → rank b < rank a) →
        ∀ c, c ∈ sub_chains (build_graph tools chains) L U ↔
          (is_walk (build_graph tools chains) c = true ∧ c.Nodup
            ∧ L ≤ c.length ∧ c.length ≤ U)) := by
  have hwf := build_graph_wf tools chains
  refine ⟨fun c => sub_chains_mem_iff _ L U hL c,
    sub_chains_nodup _ hwf.1 hwf.2 L U, ?_⟩
  intro rank hrank c
  rw [sub_chains_mem_iff _ L U hL c]
  constructor
  · rintro ⟨hwalk, hge, hle⟩
    refine ⟨hwalk, ?_, hge, hle⟩
    cases c with
    | nil => simp
    | cons x t =>
      have hxt : (is_node (build_graph tools chains) x
          && steps_ok (build_graph tools chains) (x :: t)) = true := hwalk
      rw [Bool.and_eq_true] at hxt
      have hch := (steps_ok_chain' _ (x :: t)).mp hxt.2
      have hch2 : List.Chain' (fun a b => rank b < rank a) (x :: t) :=
        hch.imp fun a b h => hrank a b h
      exact chain_nodup_of_rank rank _ hch2
  · rintro ⟨hwalk, _, hge, hle⟩
    exact ⟨hwalk, hge, hle⟩

/--
Witness for C4: on the acyclic detected chain `A -> B -> C` with bounds
`(2, 3)`, the amended characterization shows `[A, B]` is emitted.
-/
theorem sub_chains_are_bounded_walks_witness :
    (["A", "B"] : List String)
      ∈ sub_chains (build_graph ["A", "B", "C"] [["A", "B", "C"]]) 2 3 :=
  ((sub_chains_are_bounded_walks ["A", "B", "C"] [["A", "B", "C"]] 2 3
      (by decide)).1 ["A", "B"]).mpr (by decide)

end Astra
